import Mathlib

/-!
Shallow embedding of the `selenium_pages` page-object library
(`page.py`, `condition.py`) for verification of its specification.

Modelling conventions:
* A live element handle is a `Nat` (an opaque driver-side reference).
* The browser driver is external (per the spec's interface boundary); it is
  modelled by a `Driver` structure whose `find` field gives, for a scope
  handle and a (strategy, value) locator, the document-ordered list of
  matching live handles, and whose `live` field says which handles still
  correspond to nodes of the current document (staleness = not live).
* Python exceptions are values of `PyErr`; code that can raise returns
  `Except PyErr _`.  Selenium's `find_element` raises `NoSuchElementException`
  when there is no match; this is part of the driver's documented interface.
* Stateful attributes (the cached `_web_element` of a proxy) are passed and
  returned explicitly.
-/

/-- Python exception values used by the embedded code. -/
inductive PyErr where
  | noSuchElement (msg : String)
  | timeoutException (msg : String)
  | attributeError (msg : String)
  | indexError
deriving DecidableEq, Repr

/-- Python values that flow through the embedded code. -/
inductive PyVal where
  | str (s : String)
  | pyNone
  | elemRef (h : Nat)
deriving DecidableEq, Repr

/-- The external browser driver: `find scope strategy value` is the
document-ordered list of live handles matching the locator inside `scope`;
`live h` says whether handle `h` still corresponds to a node of the current
document (a handle with `live h = false` is stale). -/
structure Driver where
  find : Nat → String → String → List Nat
  live : Nat → Bool

/-- The message selenium's own `find_element` carries when no element
matches; it names no proxy, page or locator of this library. -/
def driverNoSuchElementMsg : String := "no such element"

/-- Driver capability `find_element`: first match in document order, or a
raw `NoSuchElementException` (selenium's interface; it does not raise
`TimeoutException`). -/
def Driver.find_element (d : Driver) (scope : Nat) (strategy value : String) :
    Except PyErr Nat :=
  match d.find scope strategy value with
  | [] => .error (.noSuchElement driverNoSuchElementMsg)
  | h :: _ => .ok h

/-- The f-string of `WebElementEx.element`'s `except TimeoutException`
handler: `Unable to locate {self.name} on {self.page} using locator
{self.locator}`. -/
def elementNotFoundMsg (name page strategy value : String) : String :=
  "Unable to locate " ++ name ++ " on " ++ page ++ " using locator (" ++
    strategy ++ ", " ++ value ++ ")"

/-- Embedding of the `WebElementEx.element` property (page.py lines
283-298).  Input: the driver, the proxy's scope handle, its locator,
its `name` and `page` (for the diagnostic message) and the current value
of the cached `_web_element`.  Output: the result of the property
(a handle or a raised exception) together with the new value of
`_web_element`.

The source reads:
```
if self._web_element is not None:
    try:
        return self._web_element
    except NoSuchElementException:
        self._web_element = None
        return self.element
else:
    try:
        result = self._scope.find_element(*self.locator)
        self._web_element = result
        return result
    except TimeoutException:
        raise NoSuchElementException(msg=...)
```
In the cached branch, `return self._web_element` returns a stored
reference and cannot raise, so the `except NoSuchElementException` arm is
unreachable and the cached handle is returned unconditionally.  In the
uncached branch the handler catches `TimeoutException`, which
`find_element` does not raise, so a lookup failure propagates as the
driver's raw `NoSuchElementException`. -/
def WebElementEx.element (d : Driver) (scope : Nat) (strategy value name page : String)
    (web_element : Option Nat) : Except PyErr Nat × Option Nat :=
  match web_element with
  | some h => (.ok h, some h)
  | none =>
    match d.find_element scope strategy value with
    | .ok r => (.ok r, some r)
    | .error (.timeoutException _) =>
        (.error (.noSuchElement (elementNotFoundMsg name page strategy value)), none)
    | .error e => (.error e, none)

/-- Python truthiness for the values of `PyVal`: `None` and the empty
string are falsy; a live element reference is truthy. -/
def truthy : PyVal → Bool
  | .str s => !(s == "")
  | .pyNone => false
  | .elemRef _ => true

/-- Embedding of `Condition` (condition.py): an expected-condition
predicate paired with the scope it is evaluated against.  The predicate
may raise (`Except.error`). -/
structure Condition (σ : Type) where
  expected_condition : σ → Except PyErr PyVal
  scope : σ

/-- Embedding of `Condition.__bool__` (condition.py lines 33-37):
evaluate the predicate on the scope, converting its result to a boolean;
a `NoSuchElementException` from the predicate is caught and yields
`false`; any other exception propagates. -/
def Condition.toBool {σ : Type} (c : Condition σ) : Except PyErr Bool :=
  match c.expected_condition c.scope with
  | .ok v => .ok (truthy v)
  | .error (.noSuchElement _) => .ok false
  | .error e => .error e

/-- Embedding of selenium's `ec.presence_of_element_located(locator)`
as used by `WebElementEx.is_present`: the predicate looks the locator up
in its scope, returning the found element (truthy) or raising the
driver's `NoSuchElementException` when the target is absent. -/
def presence_of_element_located (d : Driver) (strategy value : String) :
    Nat → Except PyErr PyVal :=
  fun scope =>
    match d.find_element scope strategy value with
    | .ok h => .ok (.elemRef h)
    | .error e => .error e

/-- Embedding of Python `str.replace('$', rep)` on strings as lists of
characters (the only pattern `Page.extend_url` uses): every occurrence
of the character `$` is replaced by `rep`. -/
def string_replace_dollar (rep : List Char) : List Char → List Char
  | [] => []
  | c :: rest =>
      if c = '$' then rep ++ string_replace_dollar rep rest
      else c :: string_replace_dollar rep rest

/-- Embedding of `Page.extend_url` (page.py lines 156-158):
`cls.url.replace('$', extension + '$')`. -/
def Page.extend_url (url extension : List Char) : List Char :=
  string_replace_dollar (extension ++ ['$']) url

/-- Embedding of Python `str.replace("\\.", ".")`: left-to-right,
non-overlapping replacement of the two-character sequence backslash-dot
by a literal dot, as used by `Page.navigate_to_page`. -/
def string_replace_escaped_dot : List Char → List Char
  | '\\' :: '.' :: rest => '.' :: string_replace_escaped_dot rest
  | c :: rest => c :: string_replace_escaped_dot rest
  | [] => []

/-- Embedding of `Page.navigate_to_page` (page.py lines 130-141).  It
returns the string handed to `driver.get`:
```
url = self.url
if url[0] == '^': url = url[1:]
if url[-1] == '$': url = url[:-1]
self.driver.get(url.replace(r"\.", '.'))
```
Indexing an empty string raises `IndexError`, which the model surfaces
as `Except.error .indexError`. -/
def Page.navigate_to_page (url : List Char) : Except PyErr (List Char) :=
  match url with
  | [] => .error .indexError
  | c :: rest =>
    let u1 := if c = '^' then rest else c :: rest
    match u1.getLast? with
    | none => .error .indexError
    | some l =>
      let u2 := if l = '$' then u1.dropLast else u1
      .ok (string_replace_escaped_dot u2)

/-- The attribute surface of a live selenium `WebElement`:
`get_attribute name` (the live HTML attribute value, `none` when absent)
and its own Python attributes `props` (an absent one raises
`AttributeError`). -/
structure PyWebElement where
  get_attribute : String → Option String
  props : String → Option PyVal

/-- Embedding of Python `object.__getattribute__` on a live element:
its own attribute if present, else `AttributeError`. -/
def PyWebElement.getattribute (e : PyWebElement) (item : String) : Except PyErr PyVal :=
  match e.props item with
  | some v => .ok v
  | none => .error (.attributeError item)

/-- Embedding of `item.replace('_', '-')` from
`WebElementEx.__getattribute__` (a single-character replacement is a
character map). -/
def hyphenate (item : String) : String :=
  String.mk (item.toList.map (fun c => if c = '_' then '-' else c))

/-- Python truthiness of a `get_attribute` result: `None` and the empty
string are falsy. -/
def truthyAttr : Option String → Bool
  | none => false
  | some s => !(s == "")

/-- The tail of the `or`-chain of `WebElementEx.__getattribute__`
(page.py lines 261-267): `self.element.get_attribute(item.replace('_', '-'))
or self.element.__getattribute__(item)` — the hyphenated live attribute
when truthy, else the element's own Python attribute. -/
def WebElementEx.hyphenFallback (e : PyWebElement) (item : String) : Except PyErr PyVal :=
  match e.get_attribute (hyphenate item) with
  | some s => if s == "" then e.getattribute item else .ok (.str s)
  | none => e.getattribute item

/-- Embedding of `WebElementEx.__getattribute__` (page.py lines 261-267)
for the fall-through case, with the proxy's resolved live element `e`:
```
try:
    return super().__getattribute__(item)
except AttributeError:
    return self.element.get_attribute(item) \
        or self.element.get_attribute(item.replace('_', '-')) \
        or self.element.__getattribute__(item)
```
`objAttrs` gives the attributes defined on the proxy object itself
(`super().__getattribute__`); Python's `or` falls through on any falsy
operand (both `None` and the empty string). -/
def WebElementEx.getattr (objAttrs : String → Option PyVal) (e : PyWebElement)
    (item : String) : Except PyErr PyVal :=
  match objAttrs item with
  | some v => .ok v
  | none =>
    match e.get_attribute item with
    | some s => if s == "" then WebElementEx.hyphenFallback e item else .ok (.str s)
    | none => WebElementEx.hyphenFallback e item

/-- Events of an execution trace: a step of a caller-supplied action, or
one evaluation of the condition by the wait engine. -/
inductive WaitEvent where
  | actStep (n : Nat)
  | condEval
deriving DecidableEq, Repr

/-- Trace of `WebDriverWait.until` as used by `Condition.wait_for`:
poll the condition once per round, stopping at the first truthy result;
`outcomes` lists the condition's value at each successive poll (its
length bounds the rounds the timeout window allows). -/
def until_trace : List Bool → List WaitEvent
  | [] => []
  | b :: rest => WaitEvent.condEval :: (if b then [] else until_trace rest)

/-- Trace of `wait_for(condition, timeout)` (page.py lines 200-216):
it delegates to `condition.wait_for`, i.e. to the poll loop. -/
def wait_for_trace (outcomes : List Bool) : List WaitEvent :=
  until_trace outcomes

/-- Trace of the `do_then_wait_for` context manager (page.py lines
219-239): its generator body is `yield` followed by
`wait_for(condition, timeout)`, so a `with do_then_wait_for(...)` block
runs the caller's action body first and then the wait loop.  `action` is
the trace of the caller's body. -/
def do_then_wait_for_trace (action : List WaitEvent) (outcomes : List Bool) :
    List WaitEvent :=
  action ++ wait_for_trace outcomes

mutual
/-- Embedding of `Locator` (page.py lines 30-50): search strategy,
search string, expected match count `number` (`n`, default 1), the
`exclude` flag, the optional `test_func` hook name, and the named child
Locators `elements`. -/
inductive Locator where
  | mk (strategy : String) (value : String) (number : Nat) (exclude : Bool)
       (test_func : Option String) (elements : LocatorElems)
/-- The `elements` dict of a `Locator`: an association list of named
child Locators. -/
inductive LocatorElems where
  | nil
  | cons (name : String) (loc : Locator) (rest : LocatorElems)
end

/-- The child entries of a `LocatorElems` as a plain list. -/
def LocatorElems.toList : LocatorElems → List (String × Locator)
  | .nil => []
  | .cons name loc rest => (name, loc) :: LocatorElems.toList rest

mutual
/-- Embedding of `WebElementEx.test` (page.py lines 369-376) as a
pass/fail boolean over the driver state:
```
try:
    with self._setup_test_context():
        assert self._locator.exclude or (bool(self.element) and self.count == self._locator.number)
        for key in self.keys:
            getattr(self, key).test()
except NoSuchElementException as e:
    assert False, e.msg
```
`self.element` resolves the first match of the locator in the proxy's
scope (raising when there are none, which the `except` turns into a
failure); `self.count` is the fresh live match count; child proxies are
scoped to the parent's resolved element, so when the parent has no match
every child's own resolution fails.  `_setup_test_context` only wraps
the check in a page-level context and does not affect pass/fail. -/
def WebElementEx.test (d : Driver) (scope : Nat) : Locator → Bool
  | .mk strategy value number exclude _tf els =>
    let ms := d.find scope strategy value
    (exclude || (!ms.isEmpty && ms.length == number)) &&
      WebElementEx.testChildren d ms.head? els
/-- The `for key in self.keys: getattr(self, key).test()` loop of
`WebElementEx.test`: every declared child is tested against the parent's
resolved element (`parent`); when the parent did not resolve, a child's
own resolution raises and its test fails. -/
def WebElementEx.testChildren (d : Driver) (parent : Option Nat) : LocatorElems → Bool
  | .nil => true
  | .cons _ loc rest =>
    (match parent with
     | some p => WebElementEx.test d p loc
     | none => false) && WebElementEx.testChildren d parent rest
end

/-- A driver for a document in which no locator matches anything. -/
def emptyDriver : Driver := ⟨fun _ _ _ => [], fun _ => true⟩

/-- A driver whose document holds a single fresh node `7` matching every
locator; the old handle `5` is stale (`live 5 = false`). -/
def staleDriver : Driver := ⟨fun _ _ _ => [7], fun h => h == 7⟩

/-- A driver for a document with exactly one `header` node (handle `1`)
at top level and nothing else — in particular no `dropdown` inside it. -/
def headerOnlyDriver : Driver :=
  ⟨fun s strat v =>
      if s == 0 && strat == "tag name" && v == "header" then [1] else [],
    fun _ => true⟩

/-- A driver for a document with one `header` node (handle `1`)
containing one `dropdown` node (handle `2`). -/
def headerDropdownDriver : Driver :=
  ⟨fun s strat v =>
      if s == 0 && strat == "tag name" && v == "header" then [1]
      else if s == 1 && strat == "tag name" && v == "dropdown" then [2]
      else [],
    fun _ => true⟩

/-- A driver for a document with exactly one `body` node (handle `5`). -/
def bodyDriver : Driver :=
  ⟨fun s strat v =>
      if s == 0 && strat == "tag name" && v == "body" then [5] else [],
    fun _ => true⟩

/-- Locator for a `dropdown` element, expected count 1, no children. -/
def dropdownLoc : Locator := .mk "tag name" "dropdown" 1 false none .nil

/-- Locator for a `header` element, expected count 1, with a `dropdown`
child. -/
def headerLoc : Locator :=
  .mk "tag name" "header" 1 false none (.cons "dropdown" dropdownLoc .nil)

/-- The `header` locator with `exclude=True` and the same `dropdown`
child. -/
def headerExcludedLoc : Locator :=
  .mk "tag name" "header" 1 true none (.cons "dropdown" dropdownLoc .nil)

/-- Locator for a `body` element, expected count 1, no children. -/
def bodyLoc : Locator := .mk "tag name" "body" 1 false none .nil

/-- A proxy object on which no attribute lookup succeeds directly
(`super().__getattribute__` always raises `AttributeError`). -/
def sampleObjAttrs : String → Option PyVal := fun _ => none

/-- A live element whose `data_toggle` attribute is the empty string and
whose `data-toggle` attribute is `modal`; it has no Python attributes of
its own. -/
def sampleElem : PyWebElement :=
  ⟨fun a =>
      if a == "data_toggle" then some ""
      else if a == "data-toggle" then some "modal" else none,
    fun _ => none⟩

/-- C7: `extendUrl` on the base pattern `^/a$` with extension `/b`
yields exactly `^/a/b$` — the extension is inserted before the trailing
anchor. -/
theorem extend_url_composes_before_anchor :
    Page.extend_url "^/a$".toList "/b".toList = "^/a/b$".toList := by decide

/-- C10: `extendUrl` rewrites at every occurrence of `$` in the url
pattern, not only at the trailing anchor: splitting the pattern at any
`$` shows the extension inserted there (and, recursively, at every other
occurrence on both sides), while a pattern with no `$` at all is left
unchanged. -/
theorem extend_url_rewrites_every_dollar :
    (∀ u v ext : List Char,
      Page.extend_url (u ++ '$' :: v) ext =
        Page.extend_url u ext ++ ext ++ '$' :: Page.extend_url v ext)
    ∧ (∀ s ext : List Char, '$' ∉ s → Page.extend_url s ext = s) := by
  constructor
  · intro u v ext
    induction u with
    | nil => simp [Page.extend_url, string_replace_dollar]
    | cons c rest ih =>
      by_cases hc : c = '$' <;>
        simp [Page.extend_url, string_replace_dollar, hc] at ih ⊢ <;>
        simp [ih]
  · intro s ext hs
    induction s with
    | nil => simp [Page.extend_url, string_replace_dollar]
    | cons c rest ih =>
      have hc : c ≠ '$' := fun h => hs (h ▸ List.mem_cons_self c rest)
      have hrest : '$' ∉ rest := fun h => hs (List.mem_cons_of_mem c h)
      simp [Page.extend_url, string_replace_dollar, hc] at ih ⊢
      exact ih hrest

/-- Witness for C10 at concrete inputs: the pattern `^/a$/b$` has its
interior `$` rewritten too, and a dollar-free string is unchanged. -/
theorem extend_url_rewrites_every_dollar_witness :
    Page.extend_url ("^/a".toList ++ '$' :: "/b$".toList) "/x".toList =
      Page.extend_url "^/a".toList "/x".toList ++ "/x".toList ++
        '$' :: Page.extend_url "/b$".toList "/x".toList
    ∧ Page.extend_url "abc".toList "/x".toList = "abc".toList :=
  ⟨extend_url_rewrites_every_dollar.1 "^/a".toList "/b$".toList "/x".toList,
   extend_url_rewrites_every_dollar.2 "abc".toList "/x".toList (by decide)⟩

/-- C8: `navigate_to_page` on an anchored pattern `^...$` strips exactly
the two anchoring markers and converts every escaped dot `\.` of the
remainder to a literal dot, handing that string to the driver; on the
concrete pattern `^https://example\.com/$` the driver receives
`https://example.com/`. -/
theorem navigate_strips_anchors_and_unescapes :
    (∀ mid : List Char,
      Page.navigate_to_page ('^' :: (mid ++ ['$'])) =
        .ok (string_replace_escaped_dot mid))
    ∧ Page.navigate_to_page "^https://example\\.com/$".toList =
        .ok "https://example.com/".toList := by
  constructor
  · intro mid
    simp [Page.navigate_to_page, List.getLast?_concat, List.dropLast_concat]
  · rfl

/-- C5: when a Condition's target element is absent (its scoped lookup
matches nothing), `__bool__` evaluates to `false` and raises nothing:
the predicate's `NoSuchElementException` is caught inside `__bool__`. -/
theorem condition_false_when_target_absent :
    ∀ (d : Driver) (strategy value : String) (scope : Nat),
      d.find scope strategy value = [] →
      (Condition.mk (presence_of_element_located d strategy value) scope).toBool =
        .ok false := by
  intro d strategy value scope h
  simp [Condition.toBool, presence_of_element_located, Driver.find_element, h]

/-- Witness for C5: on a document with no matches at all, the presence
condition for a `div` evaluates to `ok false`. -/
theorem condition_false_when_target_absent_witness :
    emptyDriver.find 0 "css selector" "div" = [] ∧
    (Condition.mk (presence_of_element_located emptyDriver "css selector" "div") 0).toBool =
      .ok false :=
  ⟨rfl, condition_false_when_target_absent emptyDriver "css selector" "div" 0 rfl⟩

/-- If the tail of the `or`-chain (hyphenated attribute, then the
element's own Python attribute) produces the empty string, it can only
have come from the element's own Python attribute: a falsy hyphenated
attribute value is never returned. -/
theorem hyphenFallback_empty_from_props (e : PyWebElement) (item : String) :
    WebElementEx.hyphenFallback e item = .ok (.str "") →
    e.getattribute item = .ok (.str "") := by
  intro hr
  cases hgh : e.get_attribute (hyphenate item) with
  | none => simpa [WebElementEx.hyphenFallback, hgh] using hr
  | some s =>
    by_cases hs : (s == "") = true
    · simpa [WebElementEx.hyphenFallback, hgh, hs] using hr
    · simp [WebElementEx.hyphenFallback, hgh, hs] at hr
      exact absurd hr (by simpa using hs)

/-- C9: for an attribute name not defined on the proxy object itself,
`__getattribute__` falls through past the direct live attribute whenever
the driver reports any falsy value for it — `None` or the empty
string — continuing with the hyphenated name and then the underlying
handle's own property; consequently the proxy never hands back the
empty-string value of a live attribute: an empty-string result can only
be the underlying handle's own Python property. -/
theorem getattr_falls_through_on_falsy :
    ∀ (objAttrs : String → Option PyVal) (e : PyWebElement) (item : String),
      objAttrs item = none →
      (truthyAttr (e.get_attribute item) = false →
        WebElementEx.getattr objAttrs e item = WebElementEx.hyphenFallback e item)
      ∧ (WebElementEx.getattr objAttrs e item = .ok (.str "") →
          e.getattribute item = .ok (.str "")) := by
  intro oa e item h
  refine ⟨?_, ?_⟩
  · intro hf
    cases hga : e.get_attribute item with
    | none => simp [WebElementEx.getattr, h, hga]
    | some s =>
      have hs : (s == "") = true := by simpa [truthyAttr, hga] using hf
      simp [WebElementEx.getattr, h, hga, hs]
  · intro hr
    cases hga : e.get_attribute item with
    | none =>
      simp only [WebElementEx.getattr, h, hga] at hr
      exact hyphenFallback_empty_from_props e item hr
    | some s =>
      by_cases hs : (s == "") = true
      · simp only [WebElementEx.getattr, h, hga, hs, if_pos] at hr
        exact hyphenFallback_empty_from_props e item hr
      · simp [WebElementEx.getattr, h, hga, hs] at hr
        exact absurd hr (by simpa using hs)

/-- Witness for C9: `data_toggle` reads as the empty string on the live
element, so access falls through to the hyphenated `data-toggle` and
yields `modal` — the empty string is not returned. -/
theorem getattr_falls_through_on_falsy_witness :
    WebElementEx.getattr sampleObjAttrs sampleElem "data_toggle" =
      WebElementEx.hyphenFallback sampleElem "data_toggle"
    ∧ WebElementEx.getattr sampleObjAttrs sampleElem "data_toggle" =
        .ok (.str "modal") :=
  ⟨(getattr_falls_through_on_falsy sampleObjAttrs sampleElem "data_toggle" rfl).1
      (by decide),
   by rfl⟩

/-- C2: in a `with do_then_wait_for(condition):` block the caller's
action occupies the front of the execution trace in full, and every
evaluation of the condition by the wait loop sits strictly after it: no
condition poll occurs before the action has fully executed. -/
theorem do_then_wait_for_action_precedes_polls :
    ∀ (action : List WaitEvent) (outcomes : List Bool),
      (∀ e ∈ action, e ≠ WaitEvent.condEval) →
      (do_then_wait_for_trace action outcomes).take action.length = action ∧
      ∀ j, (do_then_wait_for_trace action outcomes)[j]? = some WaitEvent.condEval →
        action.length ≤ j := by
  intro action outcomes h
  constructor
  · simp [do_then_wait_for_trace, List.take_left]
  · intro j hj
    by_contra hlt
    push_neg at hlt
    rw [do_then_wait_for_trace, List.getElem?_append_left hlt] at hj
    obtain ⟨hw, he⟩ := List.getElem?_eq_some.mp hj
    exact h _ (he ▸ List.getElem_mem hw) he

/-- Witness for C2: a two-step action followed by a wait whose condition
becomes true at the second poll; the trace keeps the whole action up
front and the poll at index 2 is not earlier than the action's length. -/
theorem do_then_wait_for_action_precedes_polls_witness :
    (do_then_wait_for_trace [WaitEvent.actStep 0, WaitEvent.actStep 1] [false, true]).take 2
      = [WaitEvent.actStep 0, WaitEvent.actStep 1]
    ∧ (2 : Nat) ≤ 2 :=
  ⟨(do_then_wait_for_action_precedes_polls [WaitEvent.actStep 0, WaitEvent.actStep 1]
      [false, true] (by decide)).1,
   (do_then_wait_for_action_precedes_polls [WaitEvent.actStep 0, WaitEvent.actStep 1]
      [false, true] (by decide)).2 2 (by decide)⟩

/-- C1 (code evaluation at the failing input): with a cached handle `5`
that is stale (`live 5 = false`) while the document holds a fresh match
`7` (which `find_element` would return), `element` neither detects the
staleness nor re-resolves: it returns the stale handle `5` and keeps it
cached.  The `except NoSuchElementException` arm guarding the cached
branch is unreachable, because `return self._web_element` returns a
stored reference and cannot raise. -/
theorem element_returns_stale_cached_handle :
    staleDriver.live 5 = false
    ∧ staleDriver.find_element 0 "css selector" "div" = .ok 7
    ∧ WebElementEx.element staleDriver 0 "css selector" "div" "button" "the page"
        (some 5) = (.ok 5, some 5) := by
  refine ⟨rfl, rfl, rfl⟩

/-- C6 (code evaluation at the failing input): with no cached handle and
a scoped lookup matching zero elements, `element` propagates the
driver's raw `NoSuchElementException` — whose message is not the
descriptive `Unable to locate {name} on {page} using locator ...` one —
because the handler that would attach the descriptive message catches
`TimeoutException`, which `find_element` never raises. -/
theorem element_not_found_lacks_diagnostics :
    WebElementEx.element emptyDriver 0 "css selector" "div" "button" "the page" none =
      (.error (.noSuchElement driverNoSuchElementMsg), none)
    ∧ driverNoSuchElementMsg ≠
        elementNotFoundMsg "button" "the page" "css selector" "div" := by
  exact ⟨rfl, by decide⟩

/-- If the child-testing loop passes, then the parent resolved and every
declared child's recursive self-test passes against it. -/
theorem testChildren_all (d : Driver) (parent : Option Nat) :
    (els : LocatorElems) → WebElementEx.testChildren d parent els = true →
    ∀ p ∈ els.toList, ∃ h, parent = some h ∧ WebElementEx.test d h p.2 = true
  | .nil, _, p, hp => by simp [LocatorElems.toList] at hp
  | .cons name loc rest, ht, p, hp => by
    simp only [WebElementEx.testChildren, Bool.and_eq_true] at ht
    cases hpar : parent with
    | none => rw [hpar] at ht; simp at ht
    | some hh =>
      rw [hpar] at ht
      rcases List.mem_cons.mp (by simpa [LocatorElems.toList] using hp) with h1 | h2
      · exact ⟨hh, rfl, by simpa [h1] using ht.1⟩
      · exact testChildren_all d (some hh) rest ht.2 p h2

/-- C4: for a Locator with `exclude=True`, `test` is exactly the
recursion into the declared children (no presence or count assertion is
made for the node: the result is the child loop alone and is independent
of the declared `number`), and whenever it passes, every declared
child's self-test was run and passed against the resolved parent. -/
theorem test_excluded_recurses_only :
    ∀ (d : Driver) (scope : Nat) (strategy value : String) (n m : Nat)
      (tf : Option String) (els : LocatorElems),
      WebElementEx.test d scope (.mk strategy value n true tf els) =
        WebElementEx.testChildren d (d.find scope strategy value).head? els
      ∧ WebElementEx.test d scope (.mk strategy value n true tf els) =
          WebElementEx.test d scope (.mk strategy value m true tf els)
      ∧ (WebElementEx.test d scope (.mk strategy value n true tf els) = true →
          ∀ p ∈ els.toList, ∃ h, (d.find scope strategy value).head? = some h ∧
            WebElementEx.test d h p.2 = true) := by
  intro d scope strategy value n m tf els
  refine ⟨by simp [WebElementEx.test], by simp [WebElementEx.test], ?_⟩
  intro ht
  simp only [WebElementEx.test, Bool.true_or, Bool.true_and] at ht
  exact testChildren_all d _ els ht

/-- Witness for C4: an excluded `header` with a `dropdown` child, on a
document holding one header containing one dropdown — the excluded
node's test passes and its child was tested (and passed) against the
resolved header. -/
theorem test_excluded_recurses_only_witness :
    WebElementEx.test headerDropdownDriver 0 headerExcludedLoc = true
    ∧ (∃ h, (headerDropdownDriver.find 0 "tag name" "header").head? = some h ∧
        WebElementEx.test headerDropdownDriver h dropdownLoc = true) :=
  ⟨by decide,
   (test_excluded_recurses_only headerDropdownDriver 0 "tag name" "header" 1 2 none
      (.cons "dropdown" dropdownLoc .nil)).2.2 (by decide)
      ("dropdown", dropdownLoc) (by simp [LocatorElems.toList])⟩

/-- Counterexample to C3 as stated: `headerLoc` has `exclude=False` and
`expectedCount=1`, and on `headerOnlyDriver`'s document exactly one live
element matches its (strategy, value) in its scope — yet its self-test
does not pass, because the declared `dropdown` child matches nothing.
Passing is not equivalent to the node's own match count alone. -/
theorem test_count_iff_counterexample :
    ¬ (WebElementEx.test headerOnlyDriver 0 headerLoc = true ↔
        (headerOnlyDriver.find 0 "tag name" "header").length = 1) := by
  decide

/-- C3 (amended): for a Locator with `exclude=False` and
`expectedCount=n` (n ≥ 1), the self-test passes iff exactly `n` live
elements match its (strategy, value) in its scope AND the recursive
self-tests of all declared children pass against the resolved node. -/
theorem test_not_excluded_iff :
    ∀ (d : Driver) (scope : Nat) (strategy value : String) (n : Nat)
      (tf : Option String) (els : LocatorElems),
      1 ≤ n →
      (WebElementEx.test d scope (.mk strategy value n false tf els) = true ↔
        ((d.find scope strategy value).length = n ∧
          WebElementEx.testChildren d (d.find scope strategy value).head? els = true)) := by
  intro d scope strategy value n tf els hn
  simp only [WebElementEx.test]
  cases hms : d.find scope strategy value with
  | nil =>
    simp only [hms, List.isEmpty_nil, Bool.not_true, Bool.false_and, Bool.or_self,
      Bool.false_eq_true, false_iff, List.length_nil]
    rintro ⟨h0, -⟩
    omega
  | cons a l =>
    simp [hms, Bool.and_eq_true, beq_iff_eq, and_assoc]

/-- Witness for C3 (amended) on a childless `body` locator with
`expectedCount=1` over a document with exactly one body node. -/
theorem test_not_excluded_iff_witness :
    WebElementEx.test bodyDriver 0 bodyLoc = true ↔
      ((bodyDriver.find 0 "tag name" "body").length = 1 ∧
        WebElementEx.testChildren bodyDriver
          (bodyDriver.find 0 "tag name" "body").head? .nil = true) :=
  test_not_excluded_iff bodyDriver 0 "tag name" "body" 1 none .nil (by decide)
